import Mathlib

/-!
Verification of `check_media_integrity.py`.

A shallow embedding of the core of the read-only media-integrity checker:
the process runner (`run` / `_decode`), the three tier evaluators
(`check_fast`, `check_decode_first_frame`, `check_full_decode`), the per-file
auditor (`audit_one`) and the tally-aggregation step of the scheduler.

External collaborators (the subprocesses ffprobe / exiftool / ffmpeg, the
wall clock, and text codecs) are modelled as explicit data:

* `ProcBehavior` records how one external process invocation behaves
  (it completes with an exit code and decoded output streams, it exceeds
  the timeout, or it cannot be launched / raises);
* `Env` fixes the tool availability flags and one behavior per tool
  invocation, plus an optional unexpected fault raised during evaluation
  (modelling the `except Exception` arm of `audit_one`);
* elapsed wall-clock milliseconds are an explicit parameter of
  `audit_one` (the code reads `time.time()`), so that timing
  non-interference can be stated;
* the byte→text codecs used by `_decode` are function parameters, since
  the codec tables live in the Python runtime, not in this program.
-/

namespace CMI

/-- The detection tier (`--mode`): `fast`, `medium` or `slow`. -/
inductive Mode where
  | fast
  | medium
  | slow
deriving DecidableEq, Repr

/-- A file path, abstracted to the one attribute the core logic reads:
its extension (`pathlib.Path.suffix`, including the leading dot). -/
structure FPath where
  suffix : String
deriving DecidableEq, Repr

/-- How one external process invocation behaves, as observed by `run`:
either the process completes with an exit code and (already-decoded)
stdout/stderr text, or it exceeds the timeout
(`subprocess.TimeoutExpired`), or launching it raises some other
exception (binary missing, permission denied, ...). -/
inductive ProcBehavior where
  | completes (rc : Int) (out err : String)
  | timesOut (msg : String)
  | launchError (msg : String)
deriving DecidableEq, Repr

/-- Source function `run(cmd, timeout)`: returns `(returncode, stdout,
stderr)`; a timeout is converted to exit code 124 with a `Timeout:`
diagnostic, any other exception to exit code 125 with an `Exception:`
diagnostic.  The byte→text decoding step of the completed case is
`_decode`, treated separately below; here completed outputs carry the
decoded text. -/
def run (b : ProcBehavior) : Int × String × String :=
  match b with
  | .completes rc out err => (rc, out, err)
  | .timesOut msg => (124, "", "Timeout: " ++ msg)
  | .launchError msg => (125, "", "Exception: " ++ msg)

/-- The ordered-fallback decode loop inside `run._decode`: try each codec
in order, return the first success, and fall back to the final (total)
lossy decoder when every attempt fails. -/
def decodeFallback (encs : List (List Nat → Option String))
    (replaceDecode : List Nat → String) (buf : List Nat) : String :=
  match encs with
  | [] => replaceDecode buf
  | d :: rest =>
    match d buf with
    | some s => s
    | none => decodeFallback rest replaceDecode buf

/-- The codec chain available to `_decode`: strict utf-8, the preferred
encoding of the host, gbk, cp936, latin-1 (each may reject an input), and
the total last-resort `utf-8, errors="replace"` decoder. -/
structure Codecs where
  utf8 : List Nat → Option String
  preferred : List Nat → Option String
  gbk : List Nat → Option String
  cp936 : List Nat → Option String
  latin1 : List Nat → Option String
  utf8Replace : List Nat → String

/-- Source function `_decode(buf)`: try
`utf-8, locale.getpreferredencoding(False) or "utf-8", gbk, cp936,
latin-1` in order, and finally `buf.decode("utf-8", errors="replace")`. -/
def decodeBytes (C : Codecs) (buf : List Nat) : String :=
  decodeFallback [C.utf8, C.preferred, C.gbk, C.cp936, C.latin1]
    C.utf8Replace buf

/-- The subprocess/tool environment of one audit: the startup
availability flags `HAS_FFPROBE` / `HAS_EXIFTOOL` / `HAS_FFMPEG` and the
behavior of each potential tool invocation on the audited file.
`fault` models an unexpected exception raised while evaluating a
supported file (the `except Exception` arm of `audit_one`); `none`
means the evaluation runs to completion. -/
structure Env where
  hasFfprobe : Bool
  hasExiftool : Bool
  hasFfmpeg : Bool
  ffprobeBeh : ProcBehavior
  exiftoolBeh : ProcBehavior
  ffmpegFirstBeh : ProcBehavior
  ffmpegFullBeh : ProcBehavior
  fault : Option String

/-- The per-file result record `FileResult`. -/
structure FileResult where
  path : FPath
  ok : Bool
  status : String
  reason : String
  mode : Mode
  duration_ms : Nat
deriving DecidableEq, Repr

/-- Rationale text `FAST_BASIS`. -/
def FAST_BASIS : String :=
  "fast：仅进行容器/元数据探测（ffprobe + exiftool），不解码像素；速度快，可能漏检深层损坏。"

/-- Rationale text `MEDIUM_BASIS`. -/
def MEDIUM_BASIS : String :=
  "medium：在 fast 基础上，额外用 ffmpeg 解码**首帧**（图像/视频），能发现大多数解码层错误。"

/-- Rationale text `SLOW_BASIS`. -/
def SLOW_BASIS : String :=
  "slow：对视频执行**全轨道完整解码**（所有帧/音频样本）到空设备，最严格但最慢；图像等效于 medium（单帧即完整）。"

/-- Per-character lower-casing of a string (`path.suffix.lower()`),
written structurally over the character list so that it evaluates. -/
def strLower (s : String) : String :=
  ⟨s.data.map Char.toLower⟩

/-- Source predicate `is_image`: the lower-cased suffix belongs to the image extension set. -/
def is_image (p : FPath) (image_exts : List String) : Bool :=
  image_exts.contains (strLower p.suffix)

/-- Source predicate `is_video`: the lower-cased suffix belongs to the video extension set. -/
def is_video (p : FPath) (video_exts : List String) : Bool :=
  video_exts.contains (strLower p.suffix)

/-- The whitespace characters stripped by the Python `str.strip()`. -/
def isPyWS (c : Char) : Bool :=
  c == ' ' || c == '\t' || c == '\n' || c == '\r' || c == '\x0b' || c == '\x0c'

/-- Model of the Python `s.strip()`: remove leading and trailing whitespace,
written structurally over the character list so that it evaluates. -/
def pyStrip (s : String) : String :=
  ⟨((s.data.dropWhile isPyWS).reverse.dropWhile isPyWS).reverse⟩

/-- Whether `pat` begins `l` (character-by-character comparison). -/
def charsStartWith : List Char → List Char → Bool
  | [], _ => true
  | _ :: _, [] => false
  | p :: ps, c :: cs => p == c && charsStartWith ps cs

/-- Whether `pat` occurs contiguously somewhere in `l`. -/
def charsHaveSub (pat : List Char) : List Char → Bool
  | [] => charsStartWith pat []
  | c :: cs => charsStartWith pat (c :: cs) || charsHaveSub pat cs

/-- Model of the Python test `Error in out`: some occurrence of the substring `Error`. -/
def containsErrorToken (s : String) : Bool :=
  charsHaveSub "Error".data s.data

/-- Python `str(bool)` formatting, as used in f-strings. -/
def pyBool (b : Bool) : String :=
  if b then "True" else "False"

/-- The diagnostic fragment `f"ffprobe rc={rc} err_len={len(err.strip())}"`. -/
def ffprobeDiag (env : Env) : String :=
  "ffprobe rc=" ++ toString (run env.ffprobeBeh).1 ++
    " err_len=" ++ toString (pyStrip (run env.ffprobeBeh).2.2).length

/-- The diagnostic fragment
`exiftool rc=... has_error_token=...` of the source. -/
def exiftoolDiag (env : Env) : String :=
  "exiftool rc=" ++ toString (run env.exiftoolBeh).1 ++
    " has_error_token=" ++ pyBool (containsErrorToken (run env.exiftoolBeh).2.1)

/-- Source function `check_fast(path, timeout)`: probe the container/metadata with
ffprobe and exiftool (each only when available); each available tool
contributes a success flag and a diagnostic fragment, an unavailable
tool only a note; the verdict is `any(ok_flags)` (false when no tool is
available) and the reason joins the fragments with `"; "`. -/
def check_fast (env : Env) : Bool × String :=
  let pr := run env.ffprobeBeh
  let ffprobe_ok := pr.1 == 0 && pyStrip pr.2.2 == ""
  let ex := run env.exiftoolBeh
  let exif_ok := ex.1 == 0 && (!containsErrorToken ex.2.1 && pyStrip ex.2.2 == "")
  let ok_flags :=
    (if env.hasFfprobe then [ffprobe_ok] else []) ++
      (if env.hasExiftool then [exif_ok] else [])
  let diagnostics :=
    (if env.hasFfprobe then [ffprobeDiag env] else ["ffprobe unavailable"]) ++
      (if env.hasExiftool then [exiftoolDiag env] else ["exiftool unavailable"])
  (ok_flags.any id, String.intercalate "; " diagnostics)

/-- The diagnostic `f"ffmpeg[first-frame] rc={rc} err_len={len(err.strip())}"`. -/
def ffmpegFirstDiag (env : Env) : String :=
  "ffmpeg[first-frame] rc=" ++ toString (run env.ffmpegFirstBeh).1 ++
    " err_len=" ++ toString (pyStrip (run env.ffmpegFirstBeh).2.2).length

/-- Source function `check_decode_first_frame(path, timeout)`: decode one frame with
ffmpeg to the null sink; an unavailable tool fails with reason `ffmpeg
unavailable`; otherwise pass requires exit code 0 and empty stripped
stderr. -/
def check_decode_first_frame (env : Env) : Bool × String :=
  if !env.hasFfmpeg then (false, "ffmpeg unavailable")
  else
    let r := run env.ffmpegFirstBeh
    (r.1 == 0 && pyStrip r.2.2 == "", ffmpegFirstDiag env)

/-- The diagnostic `f"ffmpeg[full-decode] rc={rc} err_len={len(err.strip())}"`. -/
def ffmpegFullDiag (env : Env) : String :=
  "ffmpeg[full-decode] rc=" ++ toString (run env.ffmpegFullBeh).1 ++
    " err_len=" ++ toString (pyStrip (run env.ffmpegFullBeh).2.2).length

/-- Source function `check_full_decode(path, timeout)`: decode every mapped stream with
ffmpeg to the null sink; an unavailable tool fails with reason `ffmpeg
unavailable`; otherwise pass requires exit code 0 and empty stripped
stderr. -/
def check_full_decode (env : Env) : Bool × String :=
  if !env.hasFfmpeg then (false, "ffmpeg unavailable")
  else
    let r := run env.ffmpegFullBeh
    (r.1 == 0 && pyStrip r.2.2 == "", ffmpegFullDiag env)

/-- Source function `audit_one(path, mode, timeout, image_exts, video_exts)`.  An
unsupported extension is skipped immediately (`passed = True`).  For a
supported file, an unexpected fault during evaluation is caught and
becomes an `error` verdict (`except Exception` arm).  Otherwise the
fast probe always runs; `fast` mode stops there; `medium` additionally
decodes the first frame and ANDs the two; `slow` additionally decodes
the full tracks and the verdict is the full-decode result alone.
`elapsedMs` stands for the measured wall-clock duration
`int((time.time()-t0)*1000)`. -/
def audit_one (env : Env) (p : FPath) (mode : Mode)
    (image_exts video_exts : List String) (elapsedMs : Nat) : FileResult :=
  if !(is_image p image_exts || is_video p video_exts) then
    ⟨p, true, "skipped", "unsupported extension", mode, elapsedMs⟩
  else
    match env.fault with
    | some e => ⟨p, false, "error", "Exception: " ++ e, mode, elapsedMs⟩
    | none =>
      let fastR := check_fast env
      match mode with
      | .fast =>
        ⟨p, fastR.1, if fastR.1 then "ok" else "damaged",
          FAST_BASIS ++ " | diag: " ++ fastR.2, mode, elapsedMs⟩
      | .medium =>
        let firstR := check_decode_first_frame env
        let ok := fastR.1 && firstR.1
        ⟨p, ok, if ok then "ok" else "damaged",
          MEDIUM_BASIS ++ " | fast: " ++ fastR.2 ++ " | first-frame: " ++ firstR.2,
          mode, elapsedMs⟩
      | .slow =>
        let firstR := check_decode_first_frame env
        let fullR := check_full_decode env
        ⟨p, fullR.1, if fullR.1 then "ok" else "damaged",
          SLOW_BASIS ++ " | fast: " ++ fastR.2 ++ " | first-frame: " ++ firstR.2 ++
            " | full: " ++ fullR.2,
          mode, elapsedMs⟩

/-- The running counters of `main`: `checked`, `ok_count`, `bad_count`
and the `damaged_list`. -/
structure RunTally where
  checked : Nat
  ok_count : Nat
  bad_count : Nat
  damaged : List FileResult
deriving DecidableEq, Repr

/-- The classification used by the aggregation loop: counted `ok` when
`status` equal to `ok`, or `ok` field true with `status` equal to `skipped`. -/
def isOkClass (r : FileResult) : Bool :=
  r.status == "ok" || (r.ok && r.status == "skipped")

/-- The classification used by the aggregation loop: counted `bad` when
`status` equal to `damaged` or to `error`. -/
def isBadClass (r : FileResult) : Bool :=
  r.status == "damaged" || r.status == "error"

/-- One step of the completion-collection loop of `main`: increment
`checked`, then classify the verdict into `ok_count` or `bad_count`,
appending bad verdicts to the damaged list. -/
def tallyStep (t : RunTally) (r : FileResult) : RunTally :=
  let t' : RunTally := { t with checked := t.checked + 1 }
  if isOkClass r then { t' with ok_count := t'.ok_count + 1 }
  else if isBadClass r then
    { t' with bad_count := t'.bad_count + 1, damaged := t'.damaged ++ [r] }
  else t'

/-- One audit task, as submitted to the worker pool: the subprocess
environment it will observe, the file, the run parameters and the
elapsed time its verdict will record. -/
structure AuditTask where
  env : Env
  path : FPath
  mode : Mode
  image_exts : List String
  video_exts : List String
  elapsedMs : Nat

/-- The verdict of one task. -/
def AuditTask.result (a : AuditTask) : FileResult :=
  audit_one a.env a.path a.mode a.image_exts a.video_exts a.elapsedMs

/-- The starting counters of a run. -/
def initTally : RunTally := ⟨0, 0, 0, []⟩

/-- The tally after the completion-collection loop has consumed, in
completion order, the verdicts of the given tasks. -/
def tallyAfter (ts : List AuditTask) : RunTally :=
  (ts.map AuditTask.result).foldl tallyStep initTally

/-- Occurrence of `sub` contiguously inside `s`. -/
def strHasSub (s sub : String) : Prop :=
  List.IsInfix sub.data s.data

instance strHasSubDecidable (s sub : String) : Decidable (strHasSub s sub) :=
  List.decidableInfix sub.data s.data

/-- Source set `DEFAULT_IMAGE_EXTS`. -/
def DEFAULT_IMAGE_EXTS : List String :=
  [".jpg", ".jpeg", ".png", ".gif", ".bmp", ".tif", ".tiff", ".webp",
   ".heic", ".heif", ".dng", ".cr2", ".cr3", ".nef", ".arw", ".raf", ".rw2", ".orf"]

/-- Source set `DEFAULT_VIDEO_EXTS`. -/
def DEFAULT_VIDEO_EXTS : List String :=
  [".mp4", ".m4v", ".mov", ".avi", ".mkv", ".webm", ".wmv", ".flv", ".mts", ".m2ts", ".ts",
   ".3gp", ".3gpp", ".mxf", ".mpg", ".mpeg", ".vob"]

/-- Spec-side reading of a clean ffprobe result: zero exit status and
empty (stripped) error stream. -/
def ffprobeClean (env : Env) : Bool :=
  (run env.ffprobeBeh).1 == 0 && pyStrip (run env.ffprobeBeh).2.2 == ""

/-- Spec-side reading of a clean exiftool result: zero exit status,
empty (stripped) error stream and no `Error` token in its output. -/
def exiftoolClean (env : Env) : Bool :=
  (run env.exiftoolBeh).1 == 0 &&
    (!containsErrorToken (run env.exiftoolBeh).2.1 &&
      pyStrip (run env.exiftoolBeh).2.2 == "")

/-- A `.jpg` path (supported by the default extension sets). -/
def pJpg : FPath := ⟨".jpg"⟩

/-- A `.mp4` path (supported by the default extension sets). -/
def pMp4 : FPath := ⟨".mp4"⟩

/-- A `.txt` path (unsupported by the default extension sets). -/
def pTxt : FPath := ⟨".txt"⟩

/-- All tools available and all invocations clean. -/
def envAllOk : Env :=
  ⟨true, true, true,
   .completes 0 "format json" "", .completes 0 "FileType: JPEG" "",
   .completes 0 "" "", .completes 0 "" "", none⟩

/-- All tools available; both probes and the first-frame decode fail,
but the full-track decode is clean. -/
def envProbeBadFullOk : Env :=
  ⟨true, true, true,
   .completes 1 "" "moov atom not found",
   .completes 0 "Error: Truncated file" "",
   .completes 1 "" "Invalid data found when processing input",
   .completes 0 "" "", none⟩

/-- ffprobe times out but exiftool completes cleanly; ffmpeg clean. -/
def envProbeTimeout : Env :=
  ⟨true, true, true,
   .timesOut "Command timed out after 120 seconds",
   .completes 0 "FileType: JPEG" "",
   .completes 0 "" "", .completes 0 "" "", none⟩

/-- Only exiftool is available; it exits 0 with a 7-character error
stream and no `Error` token in its output. -/
def envExifOnly : Env :=
  ⟨false, true, false,
   .completes 0 "" "", .completes 0 "FileType: JPEG" "abcdefg",
   .completes 0 "" "", .completes 0 "" "", none⟩

/-- All tools clean, but evaluation raises an unexpected fault. -/
def envFault : Env :=
  ⟨true, true, true,
   .completes 0 "format json" "", .completes 0 "FileType: JPEG" "",
   .completes 0 "" "", .completes 0 "" "",
   some "OSError(5, Input/output error)"⟩

/-- A verdict that the aggregation loop classifies into exactly one of
the `ok` / `bad` buckets. -/
def properVerdict (r : FileResult) : Prop :=
  (isOkClass r = true ∧ isBadClass r = false) ∨
    (isOkClass r = false ∧ isBadClass r = true)

/-- A small concrete run: a clean image, a damaged video and an
unsupported file, all audited at the Medium tier. -/
def demoTasks : List AuditTask :=
  [⟨envAllOk, pJpg, .medium, DEFAULT_IMAGE_EXTS, DEFAULT_VIDEO_EXTS, 5⟩,
   ⟨envProbeBadFullOk, pMp4, .medium, DEFAULT_IMAGE_EXTS, DEFAULT_VIDEO_EXTS, 6⟩,
   ⟨envAllOk, pTxt, .medium, DEFAULT_IMAGE_EXTS, DEFAULT_VIDEO_EXTS, 1⟩]

/-- All tools available; probes clean, but the full-track decode
exceeds the timeout. -/
def envFullTimeout : Env :=
  ⟨true, true, true,
   .completes 0 "format json" "", .completes 0 "FileType: MP4" "",
   .completes 0 "" "", .timesOut "stuck", none⟩

/-- A codec chain in which every fallible decode attempt fails. -/
def codecsAllFail : Codecs :=
  ⟨fun _ => none, fun _ => none, fun _ => none, fun _ => none, fun _ => none,
   fun buf => toString buf.length⟩

/-- C2: at the Fast tier on a supported file (with no unexpected fault),
`passed` is true iff at least one available tool succeeded cleanly —
ffprobe with zero exit status and empty error stream, or exiftool with
zero exit status, empty error stream and no `Error` token in its
output; when neither tool is available, `passed` is false. -/
theorem fast_passed_iff_some_tool_clean (env : Env) (p : FPath)
    (i v : List String) (t : Nat) (hf : env.fault = none)
    (hs : (is_image p i || is_video p v) = true) :
    ((audit_one env p .fast i v t).ok =
      ((env.hasFfprobe && ffprobeClean env) ||
        (env.hasExiftool && exiftoolClean env))) ∧
    (env.hasFfprobe = false → env.hasExiftool = false →
      (audit_one env p .fast i v t).ok = false) := by
  have hmain : (audit_one env p .fast i v t).ok =
      ((env.hasFfprobe && ffprobeClean env) ||
        (env.hasExiftool && exiftoolClean env)) := by
    simp only [audit_one, hs, hf, Bool.not_true, Bool.false_eq_true, if_false,
      check_fast, ffprobeClean, exiftoolClean]
    cases env.hasFfprobe <;> cases env.hasExiftool <;> simp
  refine ⟨hmain, fun h1 h2 => ?_⟩
  rw [hmain, h1, h2]
  simp

/-- Closed instance of `fast_passed_iff_some_tool_clean`. -/
theorem fast_passed_iff_some_tool_clean_witness :
    ((audit_one envAllOk pJpg .fast DEFAULT_IMAGE_EXTS DEFAULT_VIDEO_EXTS 3).ok =
      ((envAllOk.hasFfprobe && ffprobeClean envAllOk) ||
        (envAllOk.hasExiftool && exiftoolClean envAllOk))) ∧
    (envAllOk.hasFfprobe = false → envAllOk.hasExiftool = false →
      (audit_one envAllOk pJpg .fast DEFAULT_IMAGE_EXTS DEFAULT_VIDEO_EXTS 3).ok = false) :=
  fast_passed_iff_some_tool_clean envAllOk pJpg DEFAULT_IMAGE_EXTS
    DEFAULT_VIDEO_EXTS 3 rfl (by decide)

/-- C1: at the Slow tier on a supported file (with no unexpected
fault), all three evaluators contribute their diagnostics to the
reason, and `passed` equals the full-track decode result alone; in
particular there is an environment (`envProbeBadFullOk`) where the
probe and the first-frame decode both fail yet the Slow verdict is
`passed = true`. -/
theorem slow_passed_is_full_decode_only (env : Env) (p : FPath)
    (i v : List String) (t : Nat) (hf : env.fault = none)
    (hs : (is_image p i || is_video p v) = true) :
    ((audit_one env p .slow i v t).ok = (check_full_decode env).1) ∧
    ((audit_one env p .slow i v t).status =
      (if (check_full_decode env).1 then "ok" else "damaged")) ∧
    ((audit_one env p .slow i v t).reason =
      SLOW_BASIS ++ " | fast: " ++ (check_fast env).2 ++
        " | first-frame: " ++ (check_decode_first_frame env).2 ++
        " | full: " ++ (check_full_decode env).2) ∧
    ((check_fast envProbeBadFullOk).1 = false ∧
      (check_decode_first_frame envProbeBadFullOk).1 = false ∧
      (audit_one envProbeBadFullOk p .slow i v t).ok = true) := by
  refine ⟨?_, ?_, ?_, by decide, by decide, ?_⟩
  · simp [audit_one, hs, hf]
  · simp [audit_one, hs, hf]
  · simp [audit_one, hs, hf]
  · have h : (audit_one envProbeBadFullOk p .slow i v t).ok =
        (check_full_decode envProbeBadFullOk).1 := by
      simp [audit_one, hs, envProbeBadFullOk]
    rw [h]
    decide

/-- Closed instance of `slow_passed_is_full_decode_only`. -/
theorem slow_passed_is_full_decode_only_witness :
    ((audit_one envAllOk pMp4 .slow DEFAULT_IMAGE_EXTS DEFAULT_VIDEO_EXTS 9).ok =
      (check_full_decode envAllOk).1) ∧
    ((audit_one envAllOk pMp4 .slow DEFAULT_IMAGE_EXTS DEFAULT_VIDEO_EXTS 9).status =
      (if (check_full_decode envAllOk).1 then "ok" else "damaged")) ∧
    ((audit_one envAllOk pMp4 .slow DEFAULT_IMAGE_EXTS DEFAULT_VIDEO_EXTS 9).reason =
      SLOW_BASIS ++ " | fast: " ++ (check_fast envAllOk).2 ++
        " | first-frame: " ++ (check_decode_first_frame envAllOk).2 ++
        " | full: " ++ (check_full_decode envAllOk).2) ∧
    ((check_fast envProbeBadFullOk).1 = false ∧
      (check_decode_first_frame envProbeBadFullOk).1 = false ∧
      (audit_one envProbeBadFullOk pMp4 .slow DEFAULT_IMAGE_EXTS DEFAULT_VIDEO_EXTS 9).ok = true) :=
  slow_passed_is_full_decode_only envAllOk pMp4 DEFAULT_IMAGE_EXTS
    DEFAULT_VIDEO_EXTS 9 rfl (by decide)

/-- C3: at the Medium tier on a supported file (with no unexpected
fault), the first-frame decode is evaluated regardless of the probe
outcome (its diagnostic always appears in the reason), `passed` is the
logical AND of the probe result and the first-frame result, and
`passed = true` implies both succeeded. -/
theorem medium_passed_iff_probe_and_first_frame (env : Env) (p : FPath)
    (i v : List String) (t : Nat) (hf : env.fault = none)
    (hs : (is_image p i || is_video p v) = true) :
    ((audit_one env p .medium i v t).ok =
      ((check_fast env).1 && (check_decode_first_frame env).1)) ∧
    ((audit_one env p .medium i v t).status =
      (if ((check_fast env).1 && (check_decode_first_frame env).1)
        then "ok" else "damaged")) ∧
    ((audit_one env p .medium i v t).reason =
      MEDIUM_BASIS ++ " | fast: " ++ (check_fast env).2 ++
        " | first-frame: " ++ (check_decode_first_frame env).2) ∧
    ((audit_one env p .medium i v t).ok = true →
      (check_fast env).1 = true ∧ (check_decode_first_frame env).1 = true) := by
  have hok : (audit_one env p .medium i v t).ok =
      ((check_fast env).1 && (check_decode_first_frame env).1) := by
    simp [audit_one, hs, hf]
  refine ⟨hok, ?_, ?_, ?_⟩
  · simp [audit_one, hs, hf]
  · simp [audit_one, hs, hf]
  · intro h
    rw [hok] at h
    exact ⟨(Bool.and_eq_true _ _).mp h |>.1, (Bool.and_eq_true _ _).mp h |>.2⟩

/-- Closed instance of `medium_passed_iff_probe_and_first_frame`. -/
theorem medium_passed_iff_probe_and_first_frame_witness :
    ((audit_one envAllOk pJpg .medium DEFAULT_IMAGE_EXTS DEFAULT_VIDEO_EXTS 4).ok =
      ((check_fast envAllOk).1 && (check_decode_first_frame envAllOk).1)) ∧
    ((audit_one envAllOk pJpg .medium DEFAULT_IMAGE_EXTS DEFAULT_VIDEO_EXTS 4).status =
      (if ((check_fast envAllOk).1 && (check_decode_first_frame envAllOk).1)
        then "ok" else "damaged")) ∧
    ((audit_one envAllOk pJpg .medium DEFAULT_IMAGE_EXTS DEFAULT_VIDEO_EXTS 4).reason =
      MEDIUM_BASIS ++ " | fast: " ++ (check_fast envAllOk).2 ++
        " | first-frame: " ++ (check_decode_first_frame envAllOk).2) ∧
    ((audit_one envAllOk pJpg .medium DEFAULT_IMAGE_EXTS DEFAULT_VIDEO_EXTS 4).ok = true →
      (check_fast envAllOk).1 = true ∧
        (check_decode_first_frame envAllOk).1 = true) :=
  medium_passed_iff_probe_and_first_frame envAllOk pJpg DEFAULT_IMAGE_EXTS
    DEFAULT_VIDEO_EXTS 4 rfl (by decide)

/-- C4: every verdict of `audit_one` has status `skipped` exactly when
the extension is unsupported (and is then passed), `damaged`/`error`
force `passed = false`, and the recorded mode is the requested one. -/
theorem verdict_structural_invariants (env : Env) (p : FPath) (mode : Mode)
    (i v : List String) (t : Nat) :
    ((audit_one env p mode i v t).status = "skipped" ↔
      (is_image p i || is_video p v) = false) ∧
    ((audit_one env p mode i v t).status = "skipped" →
      (audit_one env p mode i v t).ok = true) ∧
    (((audit_one env p mode i v t).status = "damaged" ∨
        (audit_one env p mode i v t).status = "error") →
      (audit_one env p mode i v t).ok = false) ∧
    ((audit_one env p mode i v t).mode = mode) := by
  cases hsup : (is_image p i || is_video p v) with
  | false => simp [audit_one, hsup]
  | true =>
    cases hf : env.fault with
    | some e => simp [audit_one, hsup, hf]
    | none =>
      cases mode <;> simp [audit_one, hsup, hf] <;>
        refine ⟨?_, ?_, ?_⟩ <;> split <;> simp_all

/-- Closed instance of `verdict_structural_invariants`: an unsupported
extension is skipped and passed. -/
theorem verdict_structural_invariants_witness :
    (audit_one envAllOk pTxt .slow DEFAULT_IMAGE_EXTS DEFAULT_VIDEO_EXTS 0).status =
      "skipped" ∧
    (audit_one envAllOk pTxt .slow DEFAULT_IMAGE_EXTS DEFAULT_VIDEO_EXTS 0).ok = true :=
  have h := verdict_structural_invariants envAllOk pTxt .slow
    DEFAULT_IMAGE_EXTS DEFAULT_VIDEO_EXTS 0
  have hsk := h.1.mpr (by decide)
  ⟨hsk, h.2.1 hsk⟩

/-- C6: an unexpected fault raised while evaluating a supported file is
caught at the auditor boundary and becomes an `error` verdict with
`passed = false` whose reason carries the failure description; the
auditor returns this verdict instead of propagating the fault. -/
theorem fault_contained_as_error_verdict (env : Env) (p : FPath) (mode : Mode)
    (i v : List String) (t : Nat) (e : String) (hf : env.fault = some e)
    (hs : (is_image p i || is_video p v) = true) :
    audit_one env p mode i v t =
      ⟨p, false, "error", "Exception: " ++ e, mode, t⟩ := by
  simp [audit_one, hs, hf]

/-- Closed instance of `fault_contained_as_error_verdict`. -/
theorem fault_contained_as_error_verdict_witness :
    audit_one envFault pJpg .medium DEFAULT_IMAGE_EXTS DEFAULT_VIDEO_EXTS 7 =
      ⟨pJpg, false, "error", "Exception: OSError(5, Input/output error)", .medium, 7⟩ :=
  fault_contained_as_error_verdict envFault pJpg .medium DEFAULT_IMAGE_EXTS
    DEFAULT_VIDEO_EXTS 7 "OSError(5, Input/output error)" rfl (by decide)

/-- C10: the audit is deterministic in its inputs — two audits of the
same file at the same tier under the same tool availability and the
same external-process outcomes produce the same `passed` value and the
same status, even when the measured elapsed times differ. -/
theorem audit_passed_status_independent_of_timing (env : Env) (p : FPath)
    (mode : Mode) (i v : List String) (t1 t2 : Nat) :
    ((audit_one env p mode i v t1).ok = (audit_one env p mode i v t2).ok) ∧
    ((audit_one env p mode i v t1).status =
      (audit_one env p mode i v t2).status) := by
  cases hsup : (is_image p i || is_video p v) <;>
    cases hf : env.fault <;>
    cases mode <;>
    simp [audit_one, hsup, hf]

/-- Each completion increments `checked` by exactly one, whatever the
verdict. -/
theorem tallyStep_checked (t : RunTally) (r : FileResult) :
    (tallyStep t r).checked = t.checked + 1 := by
  unfold tallyStep
  split
  · rfl
  · split <;> rfl

/-- An `ok`-classified verdict bumps `ok_count` and leaves the damaged
list unchanged. -/
theorem tallyStep_of_ok (t : RunTally) (r : FileResult)
    (h : isOkClass r = true) :
    tallyStep t r =
      { t with checked := t.checked + 1, ok_count := t.ok_count + 1 } := by
  simp [tallyStep, h]

/-- A `bad`-classified verdict bumps `bad_count` and appends the verdict
to the damaged list. -/
theorem tallyStep_of_bad (t : RunTally) (r : FileResult)
    (h1 : isOkClass r = false) (h2 : isBadClass r = true) :
    tallyStep t r =
      { t with checked := t.checked + 1, bad_count := t.bad_count + 1,
               damaged := t.damaged ++ [r] } := by
  simp [tallyStep, h1, h2]

/-- Every verdict produced by `audit_one` falls into exactly one of the
two classification buckets of the aggregation loop. -/
theorem audit_one_properVerdict (env : Env) (p : FPath) (mode : Mode)
    (i v : List String) (t : Nat) :
    properVerdict (audit_one env p mode i v t) := by
  cases hsup : (is_image p i || is_video p v) <;>
    cases hf : env.fault <;>
    cases mode <;>
    simp [audit_one, hsup, hf, properVerdict, isOkClass, isBadClass] <;>
    split <;> simp

/-- Folding the aggregation step over properly classified verdicts:
`checked` advances by the number of verdicts, the `checked = ok + bad`
invariant is preserved, and the damaged list accumulates exactly the
bad verdicts in completion order. -/
theorem foldl_tallyStep_spec (rs : List FileResult) :
    ∀ t0 : RunTally, (∀ r ∈ rs, properVerdict r) →
      ((rs.foldl tallyStep t0).checked = t0.checked + rs.length ∧
        (t0.checked = t0.ok_count + t0.bad_count →
          (rs.foldl tallyStep t0).checked =
            (rs.foldl tallyStep t0).ok_count + (rs.foldl tallyStep t0).bad_count) ∧
        (rs.foldl tallyStep t0).damaged = t0.damaged ++ rs.filter isBadClass) := by
  induction rs with
  | nil => intro t0 _; simp
  | cons r rs ih =>
    intro t0 hall
    have hr := hall r (by simp)
    have hrest : ∀ x ∈ rs, properVerdict x := fun x hx => hall x (by simp [hx])
    have ihx := ih (tallyStep t0 r) hrest
    rcases hr with ⟨hok, hbad⟩ | ⟨hok, hbad⟩
    · rw [List.foldl_cons]
      refine ⟨?_, fun hsum => ?_, ?_⟩
      · rw [ihx.1, tallyStep_of_ok t0 r hok]
        simp
        omega
      · exact ihx.2.1 (by rw [tallyStep_of_ok t0 r hok]; simp [hsum]; omega)
      · rw [ihx.2.2, tallyStep_of_ok t0 r hok]
        simp [List.filter_cons, hbad]
    · rw [List.foldl_cons]
      refine ⟨?_, fun hsum => ?_, ?_⟩
      · rw [ihx.1, tallyStep_of_bad t0 r hok hbad]
        simp
        omega
      · exact ihx.2.1 (by rw [tallyStep_of_bad t0 r hok hbad]; simp [hsum]; omega)
      · rw [ihx.2.2, tallyStep_of_bad t0 r hok hbad]
        simp [List.filter_cons, hbad]

/-- C5: over any sequence of completed audit tasks consumed by the
aggregation loop, each completion bumps `checked` by exactly 1; after
any prefix of `k` completions `checked = k` and `checked = ok + bad`
(a verdict counts as ok when its status is `ok`, or `skipped` with
`passed = true`, and bad when its status is `damaged` or `error`, the
bad verdicts accumulating in the damaged list in completion order);
`checked` never exceeds the number of tasks and finally equals it. -/
theorem tally_checked_ok_bad_invariant (ts : List AuditTask) (k : Nat)
    (hk : k ≤ ts.length) :
    (∀ (t : RunTally) (r : FileResult), (tallyStep t r).checked = t.checked + 1) ∧
    (tallyAfter (ts.take k)).checked = k ∧
    (tallyAfter (ts.take k)).checked =
      (tallyAfter (ts.take k)).ok_count + (tallyAfter (ts.take k)).bad_count ∧
    (tallyAfter (ts.take k)).checked ≤ ts.length ∧
    (tallyAfter ts).checked = ts.length ∧
    (tallyAfter (ts.take k)).damaged =
      ((ts.take k).map AuditTask.result).filter isBadClass := by
  have hall : ∀ (us : List AuditTask) (r : FileResult),
      r ∈ us.map AuditTask.result → properVerdict r := by
    intro us r hr
    rcases List.mem_map.mp hr with ⟨a, _, rfl⟩
    exact audit_one_properVerdict a.env a.path a.mode a.image_exts a.video_exts a.elapsedMs
  have hspec := fun (us : List AuditTask) =>
    foldl_tallyStep_spec (us.map AuditTask.result) initTally (hall us)
  have hlen : ∀ us : List AuditTask,
      (tallyAfter us).checked = us.length := by
    intro us
    have := (hspec us).1
    simpa [tallyAfter, initTally] using this
  refine ⟨tallyStep_checked, ?_, ?_, ?_, hlen ts, ?_⟩
  · rw [hlen (ts.take k), List.length_take]
    exact Nat.min_eq_left hk
  · exact (hspec (ts.take k)).2.1 (by simp [initTally])
  · rw [hlen (ts.take k), List.length_take]
    exact le_trans (Nat.min_le_right _ _) (le_refl _)
  · have := (hspec (ts.take k)).2.2
    simpa [tallyAfter, initTally] using this

/-- Closed instance of `tally_checked_ok_bad_invariant` on the
three-task demo run, after two completions. -/
theorem tally_checked_ok_bad_invariant_witness :
    (∀ (t : RunTally) (r : FileResult), (tallyStep t r).checked = t.checked + 1) ∧
    (tallyAfter (demoTasks.take 2)).checked = 2 ∧
    (tallyAfter (demoTasks.take 2)).checked =
      (tallyAfter (demoTasks.take 2)).ok_count + (tallyAfter (demoTasks.take 2)).bad_count ∧
    (tallyAfter (demoTasks.take 2)).checked ≤ demoTasks.length ∧
    (tallyAfter demoTasks).checked = demoTasks.length ∧
    (tallyAfter (demoTasks.take 2)).damaged =
      ((demoTasks.take 2).map AuditTask.result).filter isBadClass :=
  tally_checked_ok_bad_invariant demoTasks 2 (by decide)

/-- The ordered-fallback loop returns the first successful decode,
falling back to the total last-resort decoder. -/
theorem decodeFallback_eq_findSome (encs : List (List Nat → Option String))
    (replaceDecode : List Nat → String) (buf : List Nat) :
    decodeFallback encs replaceDecode buf =
      ((encs.findSome? (fun d => d buf)).getD (replaceDecode buf)) := by
  induction encs with
  | nil => simp [decodeFallback]
  | cons d rest ih =>
    cases hd : d buf with
    | some s => simp [decodeFallback, hd, List.findSome?]
    | none => simp [decodeFallback, hd, List.findSome?, ih]

/-- C8: `_decode` is total and tries its codecs in order — it returns
the first codec in the chain (utf-8, preferred encoding, gbk, cp936,
latin-1) that accepts the bytes, and when every attempt fails it
returns the lossy last-resort decoding, which cannot itself fail; a
string is therefore always produced and no decoding error escapes. -/
theorem decode_total_ordered_fallback (C : Codecs) (buf : List Nat) :
    (decodeBytes C buf =
      (([C.utf8, C.preferred, C.gbk, C.cp936, C.latin1].findSome?
        (fun d => d buf)).getD (C.utf8Replace buf))) ∧
    ((∀ d ∈ [C.utf8, C.preferred, C.gbk, C.cp936, C.latin1], d buf = none) →
      decodeBytes C buf = C.utf8Replace buf) := by
  constructor
  · exact decodeFallback_eq_findSome _ _ _
  · intro hall
    rw [decodeBytes, decodeFallback_eq_findSome]
    rw [List.findSome?_eq_none_iff.mpr (fun d hd => hall d hd)]
    rfl

/-- Closed instance of `decode_total_ordered_fallback`: when every
codec rejects the bytes, the last-resort decoder supplies the result. -/
theorem decode_total_ordered_fallback_witness :
    decodeBytes codecsAllFail [200, 201] = codecsAllFail.utf8Replace [200, 201] :=
  (decode_total_ordered_fallback codecsAllFail [200, 201]).2
    (by intro d hd; simp [codecsAllFail] at hd; subst hd; rfl)

/-- C7 counterexample: the ffprobe invocation times out (its outcome is
the timeout classification, exit code 124), yet because exiftool
succeeds cleanly the Fast-tier verdict on this file is `ok` with
`passed = true` — a FileVerdict derived from a timeout outcome that is
neither `damaged` nor `error`. -/
theorem timeout_outcome_can_still_yield_ok_verdict :
    envProbeTimeout.ffprobeBeh = .timesOut "Command timed out after 120 seconds" ∧
    run envProbeTimeout.ffprobeBeh =
      (124, "", "Timeout: Command timed out after 120 seconds") ∧
    (audit_one envProbeTimeout pJpg .fast DEFAULT_IMAGE_EXTS DEFAULT_VIDEO_EXTS 2).ok
      = true ∧
    (audit_one envProbeTimeout pJpg .fast DEFAULT_IMAGE_EXTS DEFAULT_VIDEO_EXTS 2).status
      = "ok" :=
  ⟨rfl, rfl, by decide, by decide⟩

/-- C7 (amended): the runner never raises — a timeout returns the
timeout classification (exit code 124, `Timeout:` diagnostic) and a
launch failure returns the launch-error classification (exit code 125,
`Exception:` diagnostic); a verdict whose deciding evaluators saw only
timeout outcomes is `damaged`, never `ok`: a Slow verdict whose
full-track decode timed out, a Medium verdict whose first-frame decode
timed out, and a Fast verdict all of whose available probe tools timed
out are all `damaged` with `passed = false` (but a Fast verdict may
still pass when only one of two available tools times out). -/
theorem runner_timeout_classified_and_decisive_timeout_damages :
    (∀ msg, run (.timesOut msg) = (124, "", "Timeout: " ++ msg)) ∧
    (∀ msg, run (.launchError msg) = (125, "", "Exception: " ++ msg)) ∧
    (∀ (env : Env) (p : FPath) (i v : List String) (t : Nat) (msg : String),
      env.fault = none → (is_image p i || is_video p v) = true →
      env.ffmpegFullBeh = .timesOut msg →
      (audit_one env p .slow i v t).ok = false ∧
        (audit_one env p .slow i v t).status = "damaged") ∧
    (∀ (env : Env) (p : FPath) (i v : List String) (t : Nat) (msg : String),
      env.fault = none → (is_image p i || is_video p v) = true →
      env.ffmpegFirstBeh = .timesOut msg →
      (audit_one env p .medium i v t).ok = false ∧
        (audit_one env p .medium i v t).status = "damaged") ∧
    (∀ (env : Env) (p : FPath) (i v : List String) (t : Nat) (m1 m2 : String),
      env.fault = none → (is_image p i || is_video p v) = true →
      (env.hasFfprobe = true → env.ffprobeBeh = .timesOut m1) →
      (env.hasExiftool = true → env.exiftoolBeh = .timesOut m2) →
      (audit_one env p .fast i v t).ok = false ∧
        (audit_one env p .fast i v t).status = "damaged") := by
  refine ⟨fun _ => rfl, fun _ => rfl, ?_, ?_, ?_⟩
  · intro env p i v t msg hf hs hbeh
    have hfull : (check_full_decode env).1 = false := by
      cases hm : env.hasFfmpeg <;> simp [check_full_decode, hm, hbeh, run]
    constructor <;> simp [audit_one, hs, hf, hfull]
  · intro env p i v t msg hf hs hbeh
    have hfirst : (check_decode_first_frame env).1 = false := by
      cases hm : env.hasFfmpeg <;> simp [check_decode_first_frame, hm, hbeh, run]
    constructor <;> simp [audit_one, hs, hf, hfirst]
  · intro env p i v t m1 m2 hf hs h1 h2
    have hfast : (check_fast env).1 = false := by
      cases hp : env.hasFfprobe <;> cases he : env.hasExiftool <;>
        simp [check_fast, hp, he, run] <;>
        first
          | (rw [h1 hp, h2 he] <;> simp [run])
          | (rw [h1 hp]; simp [run])
          | (rw [h2 he]; simp [run])
    constructor <;> simp [audit_one, hs, hf, hfast]

/-- Closed instance of
`runner_timeout_classified_and_decisive_timeout_damages`: a Slow audit
whose full-track decode timed out is `damaged`. -/
theorem runner_timeout_classified_witness :
    run (.timesOut "stuck") = (124, "", "Timeout: stuck") ∧
    (audit_one envFullTimeout pMp4 .slow DEFAULT_IMAGE_EXTS DEFAULT_VIDEO_EXTS 8).ok
      = false ∧
    (audit_one envFullTimeout pMp4 .slow DEFAULT_IMAGE_EXTS DEFAULT_VIDEO_EXTS 8).status
      = "damaged" :=
  ⟨runner_timeout_classified_and_decisive_timeout_damages.1 "stuck",
   (runner_timeout_classified_and_decisive_timeout_damages.2.2.1 envFullTimeout pMp4
     DEFAULT_IMAGE_EXTS DEFAULT_VIDEO_EXTS 8 "stuck" rfl (by decide) rfl).1,
   (runner_timeout_classified_and_decisive_timeout_damages.2.2.1 envFullTimeout pMp4
     DEFAULT_IMAGE_EXTS DEFAULT_VIDEO_EXTS 8 "stuck" rfl (by decide) rfl).2⟩

/-- String append is associative. -/
theorem strAppend_assoc (a b c : String) : a ++ b ++ c = a ++ (b ++ c) := by
  apply String.ext
  simp [String.data_append]

/-- Every string occurs in itself. -/
theorem strHasSub_refl (s : String) : strHasSub s s :=
  ⟨[], [], by simp⟩

/-- An occurrence survives appending on the right. -/
theorem strHasSub_extend_right (a b : String) {sub : String}
    (h : strHasSub a sub) : strHasSub (a ++ b) sub := by
  obtain ⟨pre, suf, hh⟩ := h
  refine ⟨pre, suf ++ b.data, ?_⟩
  rw [String.data_append, ← hh]
  simp

/-- An occurrence survives appending on the left. -/
theorem strHasSub_extend_left (a b : String) {sub : String}
    (h : strHasSub b sub) : strHasSub (a ++ b) sub := by
  obtain ⟨pre, suf, hh⟩ := h
  refine ⟨a.data ++ pre, suf, ?_⟩
  rw [String.data_append, ← hh]
  simp

/-- In a diagnostic of shape `(p0 ++ r) ++ x ++ (m0 ++ e) ++ y`, both
the labelled field `r ++ x` and the labelled field `e ++ y` occur. -/
theorem strHasSub_labelled_fields (p0 r x m0 e y : String) :
    strHasSub ((p0 ++ r) ++ x ++ (m0 ++ e) ++ y) (r ++ x) ∧
    strHasSub ((p0 ++ r) ++ x ++ (m0 ++ e) ++ y) (e ++ y) := by
  constructor
  · apply strHasSub_extend_right
    apply strHasSub_extend_right
    rw [strAppend_assoc p0 r x]
    exact strHasSub_extend_left _ _ (strHasSub_refl _)
  · have h2 : (p0 ++ r) ++ x ++ (m0 ++ e) ++ y =
        ((p0 ++ r) ++ x ++ m0) ++ (e ++ y) := by
      apply String.ext
      simp [String.data_append]
    rw [h2]
    exact strHasSub_extend_left _ _ (strHasSub_refl _)

/-- Evaluation of `String.intercalate` on a two-element list. -/
theorem intercalate_pair (sep a b : String) :
    String.intercalate sep [a, b] = a ++ sep ++ b := rfl

/-- C9 counterexample: with only exiftool available, exiting 0 with a
7-character error stream, the diagnostic of the Fast evaluator reports the
exit status and the `Error`-token flag but nowhere contains the length
of the captured error text — the character `7` does not occur in it. -/
theorem exiftool_diag_omits_error_length :
    envExifOnly.hasExiftool = true ∧
    (pyStrip (run envExifOnly.exiftoolBeh).2.2).length = 7 ∧
    (check_fast envExifOnly).2 =
      "ffprobe unavailable; exiftool rc=0 has_error_token=False" ∧
    ¬ strHasSub (check_fast envExifOnly).2 (toString 7) :=
  ⟨rfl, by decide, by decide, by decide⟩

/-- C9 (amended): every evaluator diagnostic for an available tool
includes the exit status (`rc=...`); the ffprobe and the two ffmpeg
diagnostics additionally include the length of the stripped error text
(`err_len=...`), while the exiftool diagnostic instead includes the
`Error`-token flag (`has_error_token=...`), not the error length; the
reason of the Fast evaluator embeds the fragment of each available tool, and
the ffmpeg evaluators return their fragment as the whole diagnostic. -/
theorem evaluator_diagnostics_contents (env : Env) :
    strHasSub (ffprobeDiag env) ("rc=" ++ toString (run env.ffprobeBeh).1) ∧
    strHasSub (ffprobeDiag env)
      ("err_len=" ++ toString (pyStrip (run env.ffprobeBeh).2.2).length) ∧
    strHasSub (ffmpegFirstDiag env) ("rc=" ++ toString (run env.ffmpegFirstBeh).1) ∧
    strHasSub (ffmpegFirstDiag env)
      ("err_len=" ++ toString (pyStrip (run env.ffmpegFirstBeh).2.2).length) ∧
    strHasSub (ffmpegFullDiag env) ("rc=" ++ toString (run env.ffmpegFullBeh).1) ∧
    strHasSub (ffmpegFullDiag env)
      ("err_len=" ++ toString (pyStrip (run env.ffmpegFullBeh).2.2).length) ∧
    strHasSub (exiftoolDiag env) ("rc=" ++ toString (run env.exiftoolBeh).1) ∧
    strHasSub (exiftoolDiag env)
      ("has_error_token=" ++ pyBool (containsErrorToken (run env.exiftoolBeh).2.1)) ∧
    (env.hasFfprobe = true → strHasSub (check_fast env).2 (ffprobeDiag env)) ∧
    (env.hasExiftool = true → strHasSub (check_fast env).2 (exiftoolDiag env)) ∧
    (env.hasFfmpeg = true → (check_decode_first_frame env).2 = ffmpegFirstDiag env) ∧
    (env.hasFfmpeg = true → (check_full_decode env).2 = ffmpegFullDiag env) := by
  have a1 : ("ffprobe rc=" : String) = "ffprobe " ++ "rc=" := by decide
  have a2 : (" err_len=" : String) = " " ++ "err_len=" := by decide
  have a3 : ("ffmpeg[first-frame] rc=" : String) =
      "ffmpeg[first-frame] " ++ "rc=" := by decide
  have a4 : ("ffmpeg[full-decode] rc=" : String) =
      "ffmpeg[full-decode] " ++ "rc=" := by decide
  have a5 : ("exiftool rc=" : String) = "exiftool " ++ "rc=" := by decide
  have a6 : (" has_error_token=" : String) = " " ++ "has_error_token=" := by decide
  have hffprobe : strHasSub (ffprobeDiag env)
        ("rc=" ++ toString (run env.ffprobeBeh).1) ∧
      strHasSub (ffprobeDiag env)
        ("err_len=" ++ toString (pyStrip (run env.ffprobeBeh).2.2).length) := by
    unfold ffprobeDiag
    rw [a1, a2]
    exact strHasSub_labelled_fields "ffprobe " "rc="
      (toString (run env.ffprobeBeh).1) " " "err_len="
      (toString (pyStrip (run env.ffprobeBeh).2.2).length)
  have hfirst : strHasSub (ffmpegFirstDiag env)
        ("rc=" ++ toString (run env.ffmpegFirstBeh).1) ∧
      strHasSub (ffmpegFirstDiag env)
        ("err_len=" ++ toString (pyStrip (run env.ffmpegFirstBeh).2.2).length) := by
    unfold ffmpegFirstDiag
    rw [a3, a2]
    exact strHasSub_labelled_fields "ffmpeg[first-frame] " "rc="
      (toString (run env.ffmpegFirstBeh).1) " " "err_len="
      (toString (pyStrip (run env.ffmpegFirstBeh).2.2).length)
  have hfull : strHasSub (ffmpegFullDiag env)
        ("rc=" ++ toString (run env.ffmpegFullBeh).1) ∧
      strHasSub (ffmpegFullDiag env)
        ("err_len=" ++ toString (pyStrip (run env.ffmpegFullBeh).2.2).length) := by
    unfold ffmpegFullDiag
    rw [a4, a2]
    exact strHasSub_labelled_fields "ffmpeg[full-decode] " "rc="
      (toString (run env.ffmpegFullBeh).1) " " "err_len="
      (toString (pyStrip (run env.ffmpegFullBeh).2.2).length)
  have hexif : strHasSub (exiftoolDiag env)
        ("rc=" ++ toString (run env.exiftoolBeh).1) ∧
      strHasSub (exiftoolDiag env)
        ("has_error_token=" ++
          pyBool (containsErrorToken (run env.exiftoolBeh).2.1)) := by
    unfold exiftoolDiag
    rw [a5, a6]
    exact strHasSub_labelled_fields "exiftool " "rc="
      (toString (run env.exiftoolBeh).1) " " "has_error_token="
      (pyBool (containsErrorToken (run env.exiftoolBeh).2.1))
  refine ⟨hffprobe.1, hffprobe.2, hfirst.1, hfirst.2, hfull.1, hfull.2,
    hexif.1, hexif.2, ?_, ?_, ?_, ?_⟩
  · intro hp
    cases he : env.hasExiftool <;>
      simp only [check_fast, hp, he, if_true, if_false, List.cons_append,
        List.nil_append, intercalate_pair] <;>
      exact strHasSub_extend_right _ _
        (strHasSub_extend_right _ _ (strHasSub_refl _))
  · intro he
    cases hp : env.hasFfprobe <;>
      simp only [check_fast, hp, he, if_true, if_false, List.cons_append,
        List.nil_append, intercalate_pair] <;>
      exact strHasSub_extend_left _ _ (strHasSub_refl _)
  · intro hm
    simp [check_decode_first_frame, hm]
  · intro hm
    simp [check_full_decode, hm]

/-- Closed instance of `evaluator_diagnostics_contents`: with all tools
available, the Fast reason embeds both tool fragments and the ffmpeg
evaluator returns its fragment. -/
theorem evaluator_diagnostics_contents_witness :
    strHasSub (check_fast envAllOk).2 (ffprobeDiag envAllOk) ∧
    strHasSub (check_fast envAllOk).2 (exiftoolDiag envAllOk) ∧
    (check_decode_first_frame envAllOk).2 = ffmpegFirstDiag envAllOk :=
  have h := evaluator_diagnostics_contents envAllOk
  ⟨h.2.2.2.2.2.2.2.2.1 rfl, h.2.2.2.2.2.2.2.2.2.1 rfl,
   h.2.2.2.2.2.2.2.2.2.2.1 rfl⟩

end CMI
